import Mathlib

/-!
Shallow embedding of the `discors` gateway layer (Rust) in Lean 4.

Sources embedded:
- `src/gateway/shard.rs` : `ShardInformation`, `ConnectionStage`, `ShardAction`,
  `Shard` and its operations (`new`, `init`, `reset`, `handle_event`, `heartbeat`,
  `do_heartbeat_interval`, `identify`, `resume`).
- `src/model/gateway/event.rs` : `OpCode`, `ReceiveEventData`, `SendEventData`,
  `IdentifyProperties`, `Event` and its (de)serialization.
- `src/model/gateway/dispatch.rs` : `DispatchEvent`, `ReadyEvent`.
- `src/gateway/websocket.rs` : outbound frame construction and sending.
- `src/error.rs`, `src/gateway/error.rs` : the error taxonomy.

Conventions of the embedding:
- `u64`/`u32` values are `Nat`; the single machine-integer cast in the code
  (`as u8` on the opcode) is made explicit as `% 256`.
- `tokio::time::Instant` is a `Nat` timestamp in milliseconds; `Duration` is a
  `Nat` number of milliseconds; `Instant::elapsed` at time `now` is truncated
  subtraction `now - last`, matching the monotone non-negative clock.
- Effectful operations take an `Env` describing the transport collaborator
  (whether connecting to a URL succeeds, whether a send succeeds) and return
  the Rust result, the updated `Shard` (Rust `&mut self`), and the list of
  JSON frames written to the socket.
- `panic!` (a process abort, not a returned error) is a distinguished
  `DecodeResult.fatal` outcome, kept apart from `DecodeResult.err`.
-/

namespace Discors

/-- The subset of `serde_json::Value` exercised by this codebase.  Numbers are
`Nat` since every numeric field in the gateway model is an unsigned integer. -/
inductive Json where
  | null : Json
  | bool (b : Bool) : Json
  | num (n : Nat) : Json
  | str (s : String) : Json
  | arr (elems : List Json) : Json
  | obj (fields : List (String × Json)) : Json
deriving Repr

/-- Field list of a JSON object (`[]` for non-objects). -/
def Json.objFields : Json → List (String × Json)
  | Json.obj fields => fields
  | _ => []

/-- `serde_json::Value::as_u64`. -/
def Json.asU64 : Json → Option Nat
  | Json.num n => some n
  | _ => none

/-- `serde_json::Value::as_bool`. -/
def Json.asBool : Json → Option Bool
  | Json.bool b => some b
  | _ => none

/-- `serde_json::Value::as_str`. -/
def Json.asStr : Json → Option String
  | Json.str s => some s
  | _ => none

/-- Lookup in a `serde_json::Map` (keys are unique in a parsed map, so
first-match lookup coincides with map lookup). -/
def getKey (m : List (String × Json)) (k : String) : Option Json :=
  (m.find? (fun p => p.1 == k)).map Prod.snd

/-- Removal from a `serde_json::Map`, as performed by `Map::remove`. -/
def removeKey (m : List (String × Json)) (k : String) : List (String × Json) :=
  m.filter (fun p => p.1 != k)

/-- `Option` serialization: `None` is JSON `null` (serde's default for an
`Option` field without `skip_serializing_if`). -/
def optionJson (f : α → Json) : Option α → Json
  | none => Json.null
  | some a => f a

/-- `gateway::shard::ShardInformation`. -/
structure ShardInformation where
  id : Nat
  total : Nat
deriving Repr, DecidableEq

/-- `gateway::shard::ReconnectionKind`. -/
inductive ReconnectionKind where
  | Identify
  | Resume
deriving Repr, DecidableEq

/-- `gateway::shard::ShardAction`. -/
inductive ShardAction where
  | Heartbeat
  | Identify
  | Reconnect (kind : ReconnectionKind)
deriving Repr, DecidableEq

/-- `gateway::shard::ConnectionStage`. -/
inductive ConnectionStage where
  | Connecting
  | Connected
  | Disconnected
  | Handshake
  | Identifying
  | Resuming
deriving Repr, DecidableEq

/-- `impl Serialize for ShardInformation`: a 2-element sequence
`[id, total]`, never an object. -/
def ShardInformation.serialize (si : ShardInformation) : Json :=
  Json.arr [Json.num si.id, Json.num si.total]

/-- `impl Deserialize for ShardInformation`: deserialize a `(u64, u64)`
tuple (a JSON array of exactly two unsigned integers) and map it to the
structure. -/
def ShardInformation.deserialize : Json → Option ShardInformation
  | Json.arr [Json.num id, Json.num total] => some { id := id, total := total }
  | _ => none

/-- `model::gateway::event::OpCode`. -/
inductive OpCode where
  | Dispatch
  | Heartbeat
  | Identify
  | PresenceUpdate
  | VoiceStateUpdate
  | Resume
  | Reconnect
  | RequestGuildMembers
  | InvalidSession
  | Hello
  | HeartbeatACK
  | RequestSoundboardSounds
deriving Repr, DecidableEq

/-- `impl From<OpCode> for u8` (the `#[repr(u8)]` discriminants). -/
def OpCode.toU8 : OpCode → Nat
  | OpCode.Dispatch => 0
  | OpCode.Heartbeat => 1
  | OpCode.Identify => 2
  | OpCode.PresenceUpdate => 3
  | OpCode.VoiceStateUpdate => 4
  | OpCode.Resume => 6
  | OpCode.Reconnect => 7
  | OpCode.RequestGuildMembers => 8
  | OpCode.InvalidSession => 9
  | OpCode.Hello => 10
  | OpCode.HeartbeatACK => 11
  | OpCode.RequestSoundboardSounds => 31

/-- `impl From<u8> for OpCode`.  The Rust `match` panics on every value not
listed (`panic!("Invalid OpCode value: {value}")`); the panic is modelled by
`none`. -/
def OpCode.fromU8 (value : Nat) : Option OpCode :=
  if value = 0 then some OpCode.Dispatch
  else if value = 1 then some OpCode.Heartbeat
  else if value = 2 then some OpCode.Identify
  else if value = 3 then some OpCode.PresenceUpdate
  else if value = 4 then some OpCode.VoiceStateUpdate
  else if value = 6 then some OpCode.Resume
  else if value = 7 then some OpCode.Reconnect
  else if value = 8 then some OpCode.RequestGuildMembers
  else if value = 9 then some OpCode.InvalidSession
  else if value = 10 then some OpCode.Hello
  else if value = 11 then some OpCode.HeartbeatACK
  else if value = 31 then some OpCode.RequestSoundboardSounds
  else none

/-- The opcode values `impl From<u8> for OpCode` accepts. -/
def implementedOpValues : List Nat := [0, 1, 2, 3, 4, 6, 7, 8, 9, 10, 11, 31]

/-- `model::gateway::dispatch::ReadyEvent`.  The `user : User` and
`guilds : Vec<UnavailableGuild>` payload fields of the Rust struct carry
application-model data that no gateway-layer code reads; they are not
modelled.  The fields the `Shard` state machine reads (`session_id`,
`resume_gateway_url`) and the scalar fields (`v`, `shard`) are kept. -/
structure ReadyEvent where
  v : Nat
  session_id : String
  resume_gateway_url : String
  shard : Option (Nat × Nat)
deriving Repr, DecidableEq

/-- `model::gateway::dispatch::GuildCreateEvent` (empty struct). -/
structure GuildCreateEvent where
deriving Repr, DecidableEq

/-- `model::gateway::dispatch::GuildUpdateEvent` (empty struct). -/
structure GuildUpdateEvent where
deriving Repr, DecidableEq

/-- `model::gateway::dispatch::GuildDeleteEvent` (empty struct). -/
structure GuildDeleteEvent where
deriving Repr, DecidableEq

/-- `model::gateway::dispatch::DispatchEvent`. -/
inductive DispatchEvent where
  | Ready (ready : ReadyEvent)
  | Resumed
  | GuildCreate (payload : GuildCreateEvent)
  | GuildUpdate (payload : GuildUpdateEvent)
  | GuildDelete (payload : GuildDeleteEvent)
deriving Repr, DecidableEq

/-- `model::gateway::event::ReceiveEventData`. -/
inductive ReceiveEventData where
  | Dispatch (data : DispatchEvent)
  | Heartbeat
  | Reconnect
  | InvalidSession (resumable : Bool)
  | Hello (heartbeat_interval : Nat)
  | HeartbeatAck
deriving Repr, DecidableEq

/-- `model::gateway::event::IdentifyProperties`. -/
structure IdentifyProperties where
  os : String
  browser : String
  device : String
deriving Repr, DecidableEq

/-- `impl Default for IdentifyProperties`.  `os` is
`std::env::consts::OS`, a process-wide constant; its concrete value is
immaterial to every property proved here. -/
def IdentifyProperties.default : IdentifyProperties :=
  { os := "linux", browser := "discors", device := "discors" }

/-- `model::gateway::event::SendEventData`. -/
inductive SendEventData where
  | Heartbeat (sequence : Option Nat)
  | Identify (token : String) (properties : IdentifyProperties)
      (compress : Option Bool) (large_threshold : Option Nat)
      (shard : Option ShardInformation) (intents : Nat)
  | Resume (token : String) (session_id : String) (sequence : Nat)
deriving Repr, DecidableEq

/-- `#[derive(Serialize)] #[serde(untagged)]` on `SendEventData`: the variant
content is serialized with no tag.  On `Identify`, the three
`#[serde(skip_serializing_if = "Option::is_none")]` fields (`compress`,
`large_threshold`, `shard`) are omitted entirely when `None`; `GatewayIntents`
serializes as its raw `u32` bits; on `Resume`, `sequence` is renamed `seq`. -/
def SendEventData.serialize : SendEventData → Json
  | SendEventData.Heartbeat sequence => optionJson Json.num sequence
  | SendEventData.Identify token properties compress large_threshold shard intents =>
    Json.obj
      ([("token", Json.str token),
        ("properties", Json.obj [("os", Json.str properties.os),
          ("browser", Json.str properties.browser),
          ("device", Json.str properties.device)])]
        ++ (match compress with
            | some b => [("compress", Json.bool b)]
            | none => [])
        ++ (match large_threshold with
            | some n => [("large_threshold", Json.num n)]
            | none => [])
        ++ (match shard with
            | some si => [("shard", ShardInformation.serialize si)]
            | none => [])
        ++ [("intents", Json.num intents)])
  | SendEventData.Resume token session_id sequence =>
    Json.obj [("token", Json.str token), ("session_id", Json.str session_id),
      ("seq", Json.num sequence)]

/-- `model::gateway::event::Event`, the wire envelope. -/
structure Event where
  op : OpCode
  receive_data : Option ReceiveEventData
  send_data : Option SendEventData
  sequence : Option Nat
  event : Option String
deriving Repr, DecidableEq

/-- `impl Default for Event`. -/
def Event.default : Event :=
  { op := OpCode.Heartbeat, receive_data := none, send_data := none,
    sequence := none, event := none }

/-- The derived `Serialize` for `Event`: fields in declaration order;
`receive_data` carries `#[serde(skip_serializing)]` and is omitted;
`send_data` is renamed `"d"`, `sequence` is renamed `"s"`, `event` is renamed
`"t"`; `Option` fields have no `skip_serializing_if`, so `None` serializes as
`null`. -/
def Event.serialize (e : Event) : Json :=
  Json.obj [("op", Json.num (OpCode.toU8 e.op)),
    ("d", optionJson SendEventData.serialize e.send_data),
    ("s", optionJson Json.num e.sequence),
    ("t", optionJson Json.str e.event)]

/-- `ReadyEvent`'s derived `Deserialize` (restricted to the modelled fields):
`v`, `session_id` and `resume_gateway_url` are required, `shard` is an
optional `(u64, u64)` tuple. -/
def ReadyEvent.deserializeImpl (j : Json) : Except String ReadyEvent :=
  match j with
  | Json.obj fields =>
    match (getKey fields "v").bind Json.asU64 with
    | none => Except.error "missing field v"
    | some v =>
      match (getKey fields "session_id").bind Json.asStr with
      | none => Except.error "missing field session_id"
      | some session_id =>
        match (getKey fields "resume_gateway_url").bind Json.asStr with
        | none => Except.error "missing field resume_gateway_url"
        | some resume_gateway_url =>
          let shard := (getKey fields "shard").bind (fun s =>
            match s with
            | Json.arr [Json.num a, Json.num b] => some (a, b)
            | _ => none)
          Except.ok
            { v := v, session_id := session_id,
              resume_gateway_url := resume_gateway_url, shard := shard }
  | _ => Except.error "invalid type: expected a map"

/-- `DispatchEvent`'s derived `Deserialize`:
`#[serde(tag = "t", content = "d", rename_all = "SCREAMING_SNAKE_CASE")]` —
adjacently tagged on the envelope's `"t"`/`"d"` fields; an unrecognized tag is
a parse failure. -/
def DispatchEvent.deserializeImpl (event_map : List (String × Json)) :
    Except String DispatchEvent :=
  match (getKey event_map "t").bind Json.asStr with
  | none => Except.error "missing field t"
  | some tag =>
    if tag = "READY" then
      match getKey event_map "d" with
      | none => Except.error "missing field d"
      | some d => (ReadyEvent.deserializeImpl d).map DispatchEvent.Ready
    else if tag = "RESUMED" then Except.ok DispatchEvent.Resumed
    else if tag = "GUILD_CREATE" then Except.ok (DispatchEvent.GuildCreate {})
    else if tag = "GUILD_UPDATE" then Except.ok (DispatchEvent.GuildUpdate {})
    else if tag = "GUILD_DELETE" then Except.ok (DispatchEvent.GuildDelete {})
    else Except.error "unknown variant"

/-- `ReceiveEventData`'s derived `Deserialize` (`#[serde(untagged)]`), as
invoked on the `"d"` value of a `Hello` envelope: variants are tried in
declaration order — `Dispatch` (an adjacently tagged object), the unit
variants (JSON `null`), `InvalidSession` (a bare boolean), then `Hello` (an
object with a `heartbeat_interval` integer). -/
def ReceiveEventData.deserializeImpl (j : Json) : Except String ReceiveEventData :=
  match j with
  | Json.obj fields =>
    match DispatchEvent.deserializeImpl fields with
    | Except.ok d => Except.ok (ReceiveEventData.Dispatch d)
    | Except.error _ =>
      match (getKey fields "heartbeat_interval").bind Json.asU64 with
      | some n => Except.ok (ReceiveEventData.Hello n)
      | none => Except.error "data did not match any variant"
  | Json.null => Except.ok ReceiveEventData.Heartbeat
  | Json.bool b => Except.ok (ReceiveEventData.InvalidSession b)
  | _ => Except.error "data did not match any variant"

/-- Outcome of `Event`'s manual `Deserialize` impl.  `err` is a returned
`serde` error; `fatal` is the `panic!` raised by `impl From<u8> for OpCode`
on an unimplemented opcode value — a process abort, not an error value. -/
inductive DecodeResult where
  | ok (event : Event) : DecodeResult
  | err (msg : String) : DecodeResult
  | fatal (msg : String) : DecodeResult
deriving Repr, DecidableEq

/-- `impl<'de> Deserialize<'de> for Event` (`event.rs` lines 220-272):
deserialize a JSON map; remove `"s"` (optional integer sequence); remove
`"op"` (required integer, cast `as u8`, i.e. reduced mod 256, then
`OpCode::from` which panics on unimplemented values); parse `"d"` keyed on
the opcode, leaving `receive_data = None` on every opcode with no receive
semantics; finally remove `"t"` as the optional event name. -/
def Event.deserializeImpl (j : Json) : DecodeResult :=
  match j with
  | Json.obj fields0 =>
    let sequence := (getKey fields0 "s").bind Json.asU64
    let fields1 := removeKey fields0 "s"
    match getKey fields1 "op" with
    | none => DecodeResult.err "missing field op"
    | some opValue =>
      let fields2 := removeKey fields1 "op"
      match Json.asU64 opValue with
      | none => DecodeResult.err "op is not a u64"
      | some opNum =>
        match OpCode.fromU8 (opNum % 256) with
        | none => DecodeResult.fatal "Invalid OpCode value"
        | some op =>
          let dataResult : Except String (Option ReceiveEventData × List (String × Json)) :=
            match op with
            | OpCode.Dispatch =>
              match DispatchEvent.deserializeImpl fields2 with
              | Except.ok d => Except.ok (some (ReceiveEventData.Dispatch d), fields2)
              | Except.error msg => Except.error msg
            | OpCode.Heartbeat => Except.ok (some ReceiveEventData.Heartbeat, fields2)
            | OpCode.Reconnect => Except.ok (some ReceiveEventData.Reconnect, fields2)
            | OpCode.InvalidSession =>
              match getKey fields2 "d" with
              | none => Except.error "missing field d"
              | some d =>
                match Json.asBool d with
                | none => Except.error "d is not a bool"
                | some b =>
                  Except.ok (some (ReceiveEventData.InvalidSession b), removeKey fields2 "d")
            | OpCode.Hello =>
              match getKey fields2 "d" with
              | none => Except.error "missing field d"
              | some inner =>
                match ReceiveEventData.deserializeImpl inner with
                | Except.ok r => Except.ok (some r, removeKey fields2 "d")
                | Except.error msg => Except.error msg
            | OpCode.HeartbeatACK => Except.ok (some ReceiveEventData.HeartbeatAck, fields2)
            | _ => Except.ok (none, fields2)
          match dataResult with
          | Except.error msg => DecodeResult.err msg
          | Except.ok (data, fields3) =>
            let eventName := (getKey fields3 "t").bind Json.asStr
            DecodeResult.ok
              { op := op, receive_data := data, send_data := none,
                sequence := sequence, event := eventName }
  | _ => DecodeResult.err "invalid type: expected a map"

/-- `gateway::error::Error` (close codes kept, the frame reason dropped). -/
inductive GatewayError where
  | NoSessionToResume
  | Closed (code : Option Nat)
deriving Repr, DecidableEq

/-- `error::Error`, the crate-level error taxonomy.  The wrapped foreign
payloads (`serde_json::Error`, `tungstenite::Error`, `io::Error`) are opaque
to every property proved here. -/
inductive Error where
  | Json (msg : String)
  | Websocket
  | Gateway (e : GatewayError)
  | Io
deriving Repr, DecidableEq

/-- The transport collaborator (`tokio_tungstenite`): whether
`WebsocketClient::connect(url)` succeeds for a given URL, and whether a
`send` on the open socket succeeds. -/
structure Env where
  connectOk : String → Bool
  sendOk : Bool

/-- `gateway::websocket::WebsocketClient`, identified by the URL it was
connected to. -/
structure WebsocketClient where
  url : String
deriving Repr, DecidableEq

/-- `WebsocketClient::send`: serialize the message and write it as a text
frame; the result and the frames that reached the wire. -/
def WebsocketClient.send (env : Env) (message : Json) :
    Except Error Unit × List Json :=
  if env.sendOk then (Except.ok (), [message])
  else (Except.error Error.Websocket, [])

/-- The frame built by `WebsocketClient::send_heartbeat`. -/
def WebsocketClient.send_heartbeat_message (sequence : Option Nat) : Json :=
  Event.serialize
    { Event.default with op := OpCode.Heartbeat,
                         send_data := some (SendEventData.Heartbeat sequence) }

/-- The frame built by `WebsocketClient::send_identify`. -/
def WebsocketClient.send_identify_message (token : String)
    (shard_information : Option ShardInformation) (intents : Nat) : Json :=
  Event.serialize
    { Event.default with op := OpCode.Identify,
                         send_data := some (SendEventData.Identify token
                           IdentifyProperties.default none none shard_information intents) }

/-- The frame built by `WebsocketClient::send_resume`. -/
def WebsocketClient.send_resume_message (token : String) (session_id : String)
    (sequence : Nat) : Json :=
  Event.serialize
    { Event.default with op := OpCode.Resume,
                         send_data := some (SendEventData.Resume token session_id sequence) }

/-- `Result::is_ok` on the crate result type. -/
def exceptIsOk : Except Error Unit → Bool
  | Except.ok _ => true
  | Except.error _ => false

/-- `gateway::shard::Shard`. -/
structure Shard where
  websocket_url : String
  websocket : WebsocketClient
  connection_stage : ConnectionStage
  heartbeat_interval : Option Nat
  last_heartbeat_sent : Option Nat
  last_heartbeat_received : Bool
  sequence : Nat
  session_id : Option String
  resume_url : Option String
  shard_information : Option ShardInformation
  token : String
  intents : Nat
deriving Repr, DecidableEq

/-- `Shard::new`: connect to the gateway URL and build the initial state
(stage `Handshake`, no interval, no session, sequence 0). -/
def Shard.new (env : Env) (websocket_url : String) (token : String)
    (shard_information : ShardInformation) (intents : Nat) : Except Error Shard :=
  if env.connectOk websocket_url then
    Except.ok
      { websocket_url := websocket_url,
        websocket := { url := websocket_url },
        connection_stage := ConnectionStage.Handshake,
        heartbeat_interval := none,
        last_heartbeat_sent := none,
        last_heartbeat_received := false,
        sequence := 0,
        session_id := none,
        resume_url := none,
        shard_information := some shard_information,
        token := token,
        intents := intents }
  else Except.error Error.Websocket

/-- `Shard::init`: set stage `Connecting`, then reconnect the transport at
`resume_url` if known, else at the original URL.  The stage mutation happens
before the fallible connect, so it persists on failure. -/
def Shard.init (env : Env) (s : Shard) : Except Error Unit × Shard :=
  let s := { s with connection_stage := ConnectionStage.Connecting }
  let url := s.resume_url.getD s.websocket_url
  if env.connectOk url then (Except.ok (), { s with websocket := { url := url } })
  else (Except.error Error.Websocket, s)

/-- `Shard::reset(resuming)`: re-arm `last_heartbeat_sent` to the current
instant, clear the pending-ack flag, forget the interval, set stage
`Disconnected`, zero the sequence; when not resuming, also clear
`session_id` and `resume_url`. -/
def Shard.reset (s : Shard) (now : Nat) (resuming : Bool) : Shard :=
  let s := { s with
    last_heartbeat_sent := some now,
    last_heartbeat_received := true,
    heartbeat_interval := none,
    connection_stage := ConnectionStage.Disconnected,
    sequence := 0 }
  if !resuming then { s with session_id := none, resume_url := none } else s

/-- `Shard::handle_event` (`shard.rs` lines 127-193), the pure transition
function of the connection state machine.  `now` stands for
`Instant::now()` in the `Resumed` branch. -/
def Shard.handle_event (s : Shard) (now : Nat) (event : Except Error Event) :
    Except Error (Option ShardAction) × Shard :=
  match event with
  | Except.error err => (Except.error err, s)
  | Except.ok event =>
    match event.receive_data with
    | none => (Except.ok none, s)
    | some data =>
      match data with
      | ReceiveEventData.Dispatch d =>
        let s :=
          match d with
          | DispatchEvent.Ready ready =>
            { s with
              resume_url := some ready.resume_gateway_url,
              session_id := some ready.session_id,
              connection_stage := ConnectionStage.Connected,
              last_heartbeat_received := true }
          | DispatchEvent.Resumed =>
            { s with
              connection_stage := ConnectionStage.Connected,
              last_heartbeat_received := true,
              last_heartbeat_sent := some now }
          | _ => s
        (Except.ok none, { s with sequence := event.sequence.getD s.sequence })
      | ReceiveEventData.Heartbeat =>
        if s.connection_stage = ConnectionStage.Handshake then
          (Except.ok (some ShardAction.Identify),
            { s with connection_stage := ConnectionStage.Identifying })
        else
          (Except.ok (some ShardAction.Heartbeat), s)
      | ReceiveEventData.Reconnect =>
        (Except.ok (some (ShardAction.Reconnect ReconnectionKind.Resume)), s)
      | ReceiveEventData.InvalidSession resumable =>
        (Except.ok (some (ShardAction.Reconnect
          (if resumable then ReconnectionKind.Resume else ReconnectionKind.Identify))), s)
      | ReceiveEventData.Hello heartbeat_interval =>
        let s := { s with heartbeat_interval := some heartbeat_interval }
        (Except.ok (some
          (if s.connection_stage = ConnectionStage.Handshake then
            ShardAction.Identify
          else
            ShardAction.Reconnect
              (if s.resume_url.isSome then ReconnectionKind.Resume
               else ReconnectionKind.Identify))), s)
      | ReceiveEventData.HeartbeatAck =>
        (Except.ok none, { s with last_heartbeat_received := true })

/-- `Shard::heartbeat`: send a heartbeat frame carrying the current sequence;
on success record `last_heartbeat_sent = now` and mark the ack as pending. -/
def Shard.heartbeat (s : Shard) (env : Env) (now : Nat) :
    Except Error Unit × Shard × List Json :=
  match WebsocketClient.send env
      (WebsocketClient.send_heartbeat_message (some s.sequence)) with
  | (Except.error e, msgs) => (Except.error e, s, msgs)
  | (Except.ok _, msgs) =>
    (Except.ok (),
      { s with last_heartbeat_sent := some now, last_heartbeat_received := false },
      msgs)

/-- `Shard::do_heartbeat_interval`, the heartbeat timing policy evaluated
once per driver tick: unknown interval is vacuously satisfied; an elapsed
time within the interval is satisfied; otherwise a still-unacknowledged
previous heartbeat reports failure, else a heartbeat is sent now. -/
def Shard.do_heartbeat_interval (s : Shard) (env : Env) (now : Nat) :
    Bool × Shard × List Json :=
  match s.heartbeat_interval with
  | none => (true, s, [])
  | some heartbeat_interval =>
    let within :=
      match s.last_heartbeat_sent with
      | some last_sent => decide (now - last_sent ≤ heartbeat_interval)
      | none => false
    if within then (true, s, [])
    else if !s.last_heartbeat_received then (false, s, [])
    else
      match Shard.heartbeat s env now with
      | (r, s, msgs) => (exceptIsOk r, s, msgs)

/-- `Shard::identify`: send an Identify frame; on success set
`last_heartbeat_sent = now` and stage `Identifying`. -/
def Shard.identify (s : Shard) (env : Env) (now : Nat) :
    Except Error Unit × Shard × List Json :=
  match WebsocketClient.send env
      (WebsocketClient.send_identify_message s.token s.shard_information s.intents) with
  | (Except.error e, msgs) => (Except.error e, s, msgs)
  | (Except.ok _, msgs) =>
    (Except.ok (),
      { s with last_heartbeat_sent := some now,
               connection_stage := ConnectionStage.Identifying },
      msgs)

/-- `Shard::resume` (`shard.rs` lines 231-241): first `init()` (reopen the
transport), then set stage `Resuming`, and only then check for a captured
session id — failing with `NoSessionToResume` when absent; otherwise send the
Resume frame. -/
def Shard.resume (s : Shard) (env : Env) :
    Except Error Unit × Shard × List Json :=
  match Shard.init env s with
  | (Except.error e, s) => (Except.error e, s, [])
  | (Except.ok _, s) =>
    let s := { s with connection_stage := ConnectionStage.Resuming }
    match s.session_id with
    | none => (Except.error (Error.Gateway GatewayError.NoSessionToResume), s, [])
    | some session_id =>
      match WebsocketClient.send env
          (WebsocketClient.send_resume_message s.token session_id s.sequence) with
      | (r, msgs) => (r, s, msgs)

/-- Fold a list of inbound events through `handle_event`, keeping only the
state (the driver's view of repeated `handle_event` calls). -/
def Shard.runEvents (s : Shard) (now : Nat) : List Event → Shard
  | [] => s
  | e :: es => Shard.runEvents ((Shard.handle_event s now (Except.ok e)).2) now es

/-- The stored sequence value after each event of a run. -/
def Shard.seqTrace (s : Shard) (now : Nat) : List Event → List Nat
  | [] => []
  | e :: es =>
    let s2 := (Shard.handle_event s now (Except.ok e)).2
    s2.sequence :: Shard.seqTrace s2 now es

/-- Whether an event is a decoded Dispatch event. -/
def Event.isDispatch (e : Event) : Bool :=
  match e.receive_data with
  | some (ReceiveEventData.Dispatch _) => true
  | _ => false

/-- Whether an event is a decoded Hello event. -/
def Event.isHello (e : Event) : Bool :=
  match e.receive_data with
  | some (ReceiveEventData.Hello _) => true
  | _ => false

/-- A Dispatch envelope with an optional sequence number, as produced by the
decoder for opcode 0. -/
def dispatchEvent (sequence : Option Nat) (d : DispatchEvent) : Event :=
  { op := OpCode.Dispatch, receive_data := some (ReceiveEventData.Dispatch d),
    send_data := none, sequence := sequence, event := none }

/-- A Hello envelope, as produced by the decoder for opcode 10. -/
def helloEvent (heartbeat_interval : Nat) : Event :=
  { op := OpCode.Hello,
    receive_data := some (ReceiveEventData.Hello heartbeat_interval),
    send_data := none, sequence := none, event := none }

/-- A HeartbeatAck envelope, as produced by the decoder for opcode 11. -/
def heartbeatAckEvent : Event :=
  { op := OpCode.HeartbeatACK, receive_data := some ReceiveEventData.HeartbeatAck,
    send_data := none, sequence := none, event := none }

/-- The raw Hello message `{"op":10,"d":{"heartbeat_interval":iv},"s":null,"t":null}`. -/
def helloRaw (iv : Nat) : Json :=
  Json.obj [("op", Json.num 10),
    ("d", Json.obj [("heartbeat_interval", Json.num iv)]),
    ("s", Json.null), ("t", Json.null)]

/-- An environment whose transport always succeeds. -/
def okEnv : Env := { connectOk := fun _ => true, sendOk := true }

/-- An environment whose transport always fails. -/
def failEnv : Env := { connectOk := fun _ => false, sendOk := false }

/-- The state `Shard::new` produces for a test configuration (connect
succeeded; stage `Handshake`, nothing captured yet). -/
def testShard : Shard :=
  { websocket_url := "wss://gateway.discord.gg",
    websocket := { url := "wss://gateway.discord.gg" },
    connection_stage := ConnectionStage.Handshake,
    heartbeat_interval := none,
    last_heartbeat_sent := none,
    last_heartbeat_received := false,
    sequence := 0,
    session_id := none,
    resume_url := none,
    shard_information := some { id := 0, total := 1 },
    token := "token",
    intents := 0 }

/-- A decoded-envelope projection: `some e.receive_data` when decoding
succeeded, `none` on an error or panic. -/
def DecodeResult.receiveDataOf : DecodeResult → Option (Option ReceiveEventData)
  | DecodeResult.ok e => some e.receive_data
  | _ => none

/-- A `Shard` with a learned heartbeat interval, for concrete instantiation. -/
def c7Shard : Shard := { testShard with heartbeat_interval := some 41250 }

/-- A decoded envelope for a send-only opcode: `receive_data` is `None`. -/
def sendOnlyEvent : Event :=
  { op := OpCode.Identify, receive_data := none, send_data := none,
    sequence := none, event := none }

/-- A concrete run of Dispatch envelopes with non-decreasing sequence
numbers, one of them lacking `"s"`. -/
def c1Events : List Event :=
  [dispatchEvent (some 2) (DispatchEvent.GuildCreate {}),
   dispatchEvent none DispatchEvent.Resumed,
   dispatchEvent (some 7) (DispatchEvent.GuildDelete {})]

/- ------------------------------------------------------------------ -/
/- Helper lemmas (shared; not tied to a single claim).                -/
/- ------------------------------------------------------------------ -/

/-- Removing one key from a map leaves lookups of any other key unchanged. -/
theorem getKey_removeKey_ne (m : List (String × Json)) (k k2 : String) (h : k ≠ k2) :
    getKey (removeKey m k2) k = getKey m k := by
  induction m with
  | nil => rfl
  | cons p m ih =>
    by_cases hp2 : p.1 = k2
    · have hpk : (p.1 == k) = false := by
        refine beq_eq_false_iff_ne.mpr ?_
        intro hpk
        exact h (hpk ▸ hp2)
      have h1 : removeKey (p :: m) k2 = removeKey m k2 := by
        simp [removeKey, List.filter_cons, hp2]
      have h2 : getKey (p :: m) k = getKey m k := by
        unfold getKey
        rw [List.find?_cons, hpk]
      rw [h1, h2]
      exact ih
    · have h1 : removeKey (p :: m) k2 = p :: removeKey m k2 := by
        simp [removeKey, List.filter_cons, hp2]
      cases hpk : (p.1 == k) with
      | true =>
        rw [h1]
        unfold getKey
        rw [List.find?_cons, hpk, List.find?_cons, hpk]
      | false =>
        rw [h1]
        unfold getKey at ih ⊢
        rw [List.find?_cons, hpk, List.find?_cons, hpk]
        exact ih

/-- `OpCode::from` panics exactly on the values outside the implemented set. -/
theorem fromU8_eq_none_of_not_mem (n : Nat) (h : n ∉ implementedOpValues) :
    OpCode.fromU8 n = none := by
  simp only [implementedOpValues, List.mem_cons, List.not_mem_nil, or_false, not_or] at h
  obtain ⟨h0, h1, h2, h3, h4, h6, h7, h8, h9, h10, h11, h31⟩ := h
  simp [OpCode.fromU8, h0, h1, h2, h3, h4, h6, h7, h8, h9, h10, h11, h31]

/-- On a Dispatch envelope, `handle_event` stores the envelope's sequence
number when present and keeps the old one when absent (last-wins, not max). -/
theorem handle_event_dispatch_sequence (s : Shard) (now : Nat) (e : Event)
    (h : e.isDispatch = true) :
    ((Shard.handle_event s now (Except.ok e)).2).sequence = e.sequence.getD s.sequence := by
  cases he : e.receive_data with
  | none => simp [Event.isDispatch, he] at h
  | some data =>
    cases data with
    | Dispatch d => cases d <;> simp [Shard.handle_event, he]
    | Heartbeat => simp [Event.isDispatch, he] at h
    | Reconnect => simp [Event.isDispatch, he] at h
    | InvalidSession b => simp [Event.isDispatch, he] at h
    | Hello iv => simp [Event.isDispatch, he] at h
    | HeartbeatAck => simp [Event.isDispatch, he] at h

/-- `handle_event` never touches the stored heartbeat interval except on a
Hello envelope. -/
theorem handle_event_heartbeat_interval (s : Shard) (now : Nat) (e : Event)
    (h : e.isHello = false) :
    ((Shard.handle_event s now (Except.ok e)).2).heartbeat_interval
      = s.heartbeat_interval := by
  cases he : e.receive_data with
  | none => simp [Shard.handle_event, he]
  | some data =>
    cases data with
    | Dispatch d => cases d <;> simp [Shard.handle_event, he]
    | Heartbeat =>
      by_cases hs : s.connection_stage = ConnectionStage.Handshake <;>
        simp [Shard.handle_event, he, hs]
    | Reconnect => simp [Shard.handle_event, he]
    | InvalidSession b => simp [Shard.handle_event, he]
    | Hello iv => simp [Event.isHello, he] at h
    | HeartbeatAck => simp [Shard.handle_event, he]

/-- A run containing no Hello envelope preserves the stored interval. -/
theorem runEvents_heartbeat_interval (now : Nat) (es : List Event) :
    ∀ s : Shard, (∀ e ∈ es, e.isHello = false) →
      (Shard.runEvents s now es).heartbeat_interval = s.heartbeat_interval := by
  induction es with
  | nil => intro s _; rfl
  | cons e es ih =>
    intro s h
    have he : e.isHello = false := h e (List.mem_cons_self e es)
    have hes : ∀ e' ∈ es, e'.isHello = false :=
      fun e' he' => h e' (List.mem_cons_of_mem e he')
    calc (Shard.runEvents s now (e :: es)).heartbeat_interval
        = (Shard.runEvents ((Shard.handle_event s now (Except.ok e)).2) now es).heartbeat_interval := rfl
      _ = ((Shard.handle_event s now (Except.ok e)).2).heartbeat_interval := ih _ hes
      _ = s.heartbeat_interval := handle_event_heartbeat_interval s now e he

/- ------------------------------------------------------------------ -/
/- Claims.                                                            -/
/- ------------------------------------------------------------------ -/

/-- Claim C1, counterexample: `handle_event` stores a Dispatch envelope's
`"s"` value by plain assignment (`unwrap_or`), not by maximum — after
observing `s = 5` and then `s = 3`, the stored sequence is 3: it decreased
and no longer equals the maximum observed so far. -/
theorem C1_counterexample :
    ((Shard.handle_event testShard 0
        (Except.ok (dispatchEvent (some 5) (DispatchEvent.GuildCreate {})))).2).sequence = 5 ∧
    ((Shard.handle_event
        (Shard.handle_event testShard 0
          (Except.ok (dispatchEvent (some 5) (DispatchEvent.GuildCreate {})))).2 0
        (Except.ok (dispatchEvent (some 3) (DispatchEvent.GuildCreate {})))).2).sequence = 3 ∧
    (3 : Nat) < 5 ∧ (3 : Nat) ≠ Nat.max 5 3 :=
  ⟨rfl, rfl, by decide, by decide⟩

/-- Claim C1, amended: for every run of Dispatch envelopes whose present
`"s"` values are non-decreasing (and start at or above the stored sequence),
the stored sequence after the run equals the maximum `"s"` observed so far
(the initial value when none was observed), and the stored sequence is
monotonically non-decreasing along the run.  Without that ordering
hypothesis the stored value is simply the last observed `"s"`. -/
theorem C1_amended_monotone_dispatch (now : Nat) (es : List Event) :
    ∀ s : Shard, (∀ e ∈ es, e.isDispatch = true) →
      List.Chain' (· ≤ ·) (s.sequence :: es.filterMap Event.sequence) →
      (Shard.runEvents s now es).sequence
          = (es.filterMap Event.sequence).foldl Nat.max s.sequence ∧
        List.Chain' (· ≤ ·) (s.sequence :: Shard.seqTrace s now es) := by
  induction es with
  | nil =>
    intro s _ _
    exact ⟨rfl, List.chain'_singleton _⟩
  | cons e es ih =>
    intro s hd hchain
    have hde : e.isDispatch = true := hd e (List.mem_cons_self e es)
    have hds : ∀ e' ∈ es, e'.isDispatch = true :=
      fun e' he' => hd e' (List.mem_cons_of_mem e he')
    have hseq := handle_event_dispatch_sequence s now e hde
    cases hes : e.sequence with
    | none =>
      have hfm : (e :: es).filterMap Event.sequence = es.filterMap Event.sequence := by
        simp [List.filterMap_cons, hes]
      rw [hfm] at hchain ⊢
      have hs2 : ((Shard.handle_event s now (Except.ok e)).2).sequence = s.sequence := by
        rw [hseq, hes]; rfl
      have hchain2 : List.Chain' (· ≤ ·)
          (((Shard.handle_event s now (Except.ok e)).2).sequence
            :: es.filterMap Event.sequence) := by
        rw [hs2]; exact hchain
      obtain ⟨ih1, ih2⟩ := ih ((Shard.handle_event s now (Except.ok e)).2) hds hchain2
      refine ⟨?_, ?_⟩
      · calc (Shard.runEvents s now (e :: es)).sequence
            = (Shard.runEvents ((Shard.handle_event s now (Except.ok e)).2) now es).sequence := rfl
          _ = (es.filterMap Event.sequence).foldl Nat.max
                ((Shard.handle_event s now (Except.ok e)).2).sequence := ih1
          _ = (es.filterMap Event.sequence).foldl Nat.max s.sequence := by rw [hs2]
      · show List.Chain' (· ≤ ·)
          (s.sequence :: ((Shard.handle_event s now (Except.ok e)).2).sequence
            :: Shard.seqTrace ((Shard.handle_event s now (Except.ok e)).2) now es)
        rw [List.chain'_cons]
        exact ⟨hs2.symm.le, ih2⟩
    | some n =>
      have hfm : (e :: es).filterMap Event.sequence = n :: es.filterMap Event.sequence := by
        simp [List.filterMap_cons, hes]
      rw [hfm] at hchain ⊢
      rw [List.chain'_cons] at hchain
      obtain ⟨hle, hchainTail⟩ := hchain
      have hs2 : ((Shard.handle_event s now (Except.ok e)).2).sequence = n := by
        rw [hseq, hes]; rfl
      have hchain2 : List.Chain' (· ≤ ·)
          (((Shard.handle_event s now (Except.ok e)).2).sequence
            :: es.filterMap Event.sequence) := by
        rw [hs2]; exact hchainTail
      obtain ⟨ih1, ih2⟩ := ih ((Shard.handle_event s now (Except.ok e)).2) hds hchain2
      refine ⟨?_, ?_⟩
      · calc (Shard.runEvents s now (e :: es)).sequence
            = (Shard.runEvents ((Shard.handle_event s now (Except.ok e)).2) now es).sequence := rfl
          _ = (es.filterMap Event.sequence).foldl Nat.max
                ((Shard.handle_event s now (Except.ok e)).2).sequence := ih1
          _ = (es.filterMap Event.sequence).foldl Nat.max n := by rw [hs2]
          _ = (n :: es.filterMap Event.sequence).foldl Nat.max s.sequence := by
              rw [List.foldl_cons,
                show Nat.max s.sequence n = n from Nat.max_eq_right hle]
      · show List.Chain' (· ≤ ·)
          (s.sequence :: ((Shard.handle_event s now (Except.ok e)).2).sequence
            :: Shard.seqTrace ((Shard.handle_event s now (Except.ok e)).2) now es)
        rw [List.chain'_cons]
        exact ⟨hs2.symm ▸ hle, ih2⟩

/-- Claim C1, witness: the amended statement on a concrete run — Dispatch
with `s = 2`, a Dispatch lacking `"s"`, then Dispatch with `s = 7` — gives
stored sequence `max` = 7 and a non-decreasing trace. -/
theorem C1_witness :
    (∀ e ∈ c1Events, e.isDispatch = true) ∧
    List.Chain' (· ≤ ·) (testShard.sequence :: c1Events.filterMap Event.sequence) ∧
    ((Shard.runEvents testShard 0 c1Events).sequence
        = (c1Events.filterMap Event.sequence).foldl Nat.max testShard.sequence ∧
      List.Chain' (· ≤ ·) (testShard.sequence :: Shard.seqTrace testShard 0 c1Events)) :=
  have h1 : ∀ e ∈ c1Events, e.isDispatch = true := by decide
  have h2 : List.Chain' (· ≤ ·) (testShard.sequence :: c1Events.filterMap Event.sequence) := by
    simp [c1Events, dispatchEvent, testShard, List.chain'_cons]
  ⟨h1, h2, C1_amended_monotone_dispatch 0 c1Events testShard h1 h2⟩

/-- Claim C2, counterexample: the frame built by
`WebsocketClient::send_heartbeat` (a typed Send Event) serializes with the
keys `"s"` and `"t"` present, each bound to `null` — the derived `Serialize`
for `Event` has no `skip_serializing_if` on `sequence`/`event`, so the claim
that only `"op"` and `"d"` appear is false. -/
theorem C2_counterexample :
    ((WebsocketClient.send_heartbeat_message (some 42)).objFields.map Prod.fst)
      = ["op", "d", "s", "t"] ∧
    getKey (WebsocketClient.send_heartbeat_message (some 42)).objFields "s"
      = some Json.null ∧
    getKey (WebsocketClient.send_heartbeat_message (some 42)).objFields "t"
      = some Json.null :=
  ⟨rfl, rfl, rfl⟩

/-- Claim C2, amended: every typed Send Event (Heartbeat, Identify, Resume)
serializes to an object with exactly the keys `"op"`, `"d"`, `"s"`, `"t"`,
in that order, where `"s"` and `"t"` are `null` (the send path always leaves
`sequence` and `event` unset). -/
theorem C2_amended_send_frame_keys (seq : Option Nat) (token sid : String)
    (n intents : Nat) (si : Option ShardInformation) :
    (((WebsocketClient.send_heartbeat_message seq).objFields.map Prod.fst)
        = ["op", "d", "s", "t"] ∧
      getKey (WebsocketClient.send_heartbeat_message seq).objFields "s" = some Json.null ∧
      getKey (WebsocketClient.send_heartbeat_message seq).objFields "t" = some Json.null) ∧
    (((WebsocketClient.send_identify_message token si intents).objFields.map Prod.fst)
        = ["op", "d", "s", "t"] ∧
      getKey (WebsocketClient.send_identify_message token si intents).objFields "s"
        = some Json.null ∧
      getKey (WebsocketClient.send_identify_message token si intents).objFields "t"
        = some Json.null) ∧
    (((WebsocketClient.send_resume_message token sid n).objFields.map Prod.fst)
        = ["op", "d", "s", "t"] ∧
      getKey (WebsocketClient.send_resume_message token sid n).objFields "s"
        = some Json.null ∧
      getKey (WebsocketClient.send_resume_message token sid n).objFields "t"
        = some Json.null) :=
  ⟨⟨rfl, rfl, rfl⟩, ⟨rfl, rfl, rfl⟩, ⟨rfl, rfl, rfl⟩⟩

/-- Claim C3, counterexample: with `session_id` absent but the transport
collaborator unable to reconnect, `resume()` fails with the transport error
from `init()`, not with `NoSessionToResume` — so the error the caller
observes does depend on the transport. -/
theorem C3_counterexample :
    testShard.session_id = none ∧
    (Shard.resume testShard failEnv).1 = Except.error Error.Websocket ∧
    Error.Websocket ≠ Error.Gateway GatewayError.NoSessionToResume :=
  ⟨rfl, rfl, by decide⟩

/-- Claim C3, amended: whenever `session_id` is absent and the transport
reopen performed by `init()` succeeds, `resume()` fails with
`NoSessionToResume`; the pre-existing link is irrelevant because it is
unconditionally replaced, but a failing reconnect surfaces as the transport
error instead. -/
theorem C3_amended_no_session (s : Shard) (env : Env)
    (hsid : s.session_id = none)
    (hconn : env.connectOk (s.resume_url.getD s.websocket_url) = true) :
    (Shard.resume s env).1 = Except.error (Error.Gateway GatewayError.NoSessionToResume) := by
  simp [Shard.resume, Shard.init, hconn, hsid]

/-- Claim C3, witness: the amended statement at a concrete shard (fresh,
no session) and an always-connecting environment. -/
theorem C3_witness :
    testShard.session_id = none ∧
    okEnv.connectOk (testShard.resume_url.getD testShard.websocket_url) = true ∧
    (Shard.resume testShard okEnv).1
      = Except.error (Error.Gateway GatewayError.NoSessionToResume) :=
  ⟨rfl, rfl, C3_amended_no_session testShard okEnv rfl rfl⟩

/-- Claim C4, counterexample: the raw message `{"op":257}` has its integer
`"op"` outside the implemented opcode set, yet decoding does not reject it:
the `as u8` cast truncates 257 to 1 and the decoder yields a Heartbeat
event. -/
theorem C4_counterexample :
    (257 : Nat) ∉ implementedOpValues ∧
    Event.deserializeImpl (Json.obj [("op", Json.num 257)])
      = DecodeResult.ok
          { op := OpCode.Heartbeat, receive_data := some ReceiveEventData.Heartbeat,
            send_data := none, sequence := none, event := none } :=
  ⟨by decide, rfl⟩

/-- Claim C4, amended: decoding is keyed on the low byte of `"op"`
(`as u8` truncation); whenever that low byte is outside the implemented set
`{0,1,2,3,4,6,7,8,9,10,11,31}`, decoding aborts with the
`Invalid OpCode value` panic (a process abort, not a returned decode error)
and never yields an event; values ≥ 256 whose low byte is implemented decode
as that opcode instead. -/
theorem C4_amended_unknown_opcode (fields : List (String × Json)) (v : Nat)
    (hop : getKey fields "op" = some (Json.num v))
    (hv : v % 256 ∉ implementedOpValues) :
    Event.deserializeImpl (Json.obj fields) = DecodeResult.fatal "Invalid OpCode value" := by
  have hop2 : getKey (removeKey fields "s") "op" = some (Json.num v) :=
    (getKey_removeKey_ne fields "op" "s" (by decide)).trans hop
  have hnone := fromU8_eq_none_of_not_mem (v % 256) hv
  simp [Event.deserializeImpl, hop2, Json.asU64, hnone]

/-- Claim C4, witness: the amended statement at the concrete raw message
`{"op":5}` (opcode 5 is unimplemented and below 256, so no truncation is
involved). -/
theorem C4_witness :
    getKey [("op", Json.num 5)] "op" = some (Json.num 5) ∧
    (5 % 256 : Nat) ∉ implementedOpValues ∧
    Event.deserializeImpl (Json.obj [("op", Json.num 5)])
      = DecodeResult.fatal "Invalid OpCode value" :=
  ⟨rfl, by decide, C4_amended_unknown_opcode [("op", Json.num 5)] 5 rfl (by decide)⟩

/-- Claim C5: `reset(resuming)` always forgets the heartbeat interval,
clears the pending-ack flag (`last_heartbeat_received = true`), re-arms
`last_heartbeat_sent` to the reset instant, sets stage `Disconnected` and
sequence 0; `session_id` and `resume_url` are cleared exactly when
`resuming` is false and preserved unchanged otherwise. -/
theorem C5_reset_effect (s : Shard) (now : Nat) (resuming : Bool) :
    (Shard.reset s now resuming).heartbeat_interval = none ∧
    (Shard.reset s now resuming).last_heartbeat_sent = some now ∧
    (Shard.reset s now resuming).last_heartbeat_received = true ∧
    (Shard.reset s now resuming).connection_stage = ConnectionStage.Disconnected ∧
    (Shard.reset s now resuming).sequence = 0 ∧
    (Shard.reset s now resuming).session_id = (if resuming then s.session_id else none) ∧
    (Shard.reset s now resuming).resume_url = (if resuming then s.resume_url else none) := by
  cases resuming <;> simp [Shard.reset]

/-- Claim C6, counterexample: the stored interval does not remain unchanged
"until the next reset" — a second Hello envelope overwrites it with no reset
in between: after Hello(41250) in Handshake (action Identify, interval
41250 ms stored), a Hello(100) replaces the stored interval with 100 ms. -/
theorem C6_counterexample :
    (Shard.handle_event testShard 0 (Except.ok (helloEvent 41250))).1
      = Except.ok (some ShardAction.Identify) ∧
    ((Shard.handle_event testShard 0 (Except.ok (helloEvent 41250))).2).heartbeat_interval
      = some 41250 ∧
    ((Shard.handle_event
        (Shard.handle_event testShard 0 (Except.ok (helloEvent 41250))).2 0
        (Except.ok (helloEvent 100))).2).heartbeat_interval = some 100 ∧
    some (100 : Nat) ≠ some (41250 : Nat) :=
  ⟨rfl, rfl, rfl, by decide⟩

/-- Claim C6, amended: the raw message
`{"op":10,"d":{"heartbeat_interval":iv},"s":null,"t":null}` decodes to a
Hello envelope; handling it while stage is Handshake returns action
Identify and stores the interval; the stored interval then remains
unchanged across every further event that is not itself a Hello (a second
Hello overwrites it, and a reset clears it). -/
theorem C6_amended_hello_stores_interval (s : Shard) (iv now : Nat) (es : List Event)
    (hstage : s.connection_stage = ConnectionStage.Handshake)
    (hnohello : ∀ e ∈ es, e.isHello = false) :
    Event.deserializeImpl (helloRaw iv) = DecodeResult.ok (helloEvent iv) ∧
    (Shard.handle_event s now (Except.ok (helloEvent iv))).1
      = Except.ok (some ShardAction.Identify) ∧
    ((Shard.handle_event s now (Except.ok (helloEvent iv))).2).heartbeat_interval
      = some iv ∧
    (Shard.runEvents ((Shard.handle_event s now (Except.ok (helloEvent iv))).2)
        now es).heartbeat_interval = some iv := by
  refine ⟨rfl, ?_, ?_, ?_⟩
  · simp [Shard.handle_event, helloEvent, hstage]
  · simp [Shard.handle_event, helloEvent]
  · rw [runEvents_heartbeat_interval now es _ hnohello]
    simp [Shard.handle_event, helloEvent]

/-- Claim C6, witness: the amended statement at the spec's scenario —
interval 41250 ms received in Handshake, followed by a HeartbeatAck that
leaves the interval untouched. -/
theorem C6_witness :
    testShard.connection_stage = ConnectionStage.Handshake ∧
    (∀ e ∈ [heartbeatAckEvent], e.isHello = false) ∧
    (Event.deserializeImpl (helloRaw 41250) = DecodeResult.ok (helloEvent 41250) ∧
      (Shard.handle_event testShard 0 (Except.ok (helloEvent 41250))).1
        = Except.ok (some ShardAction.Identify) ∧
      ((Shard.handle_event testShard 0 (Except.ok (helloEvent 41250))).2).heartbeat_interval
        = some 41250 ∧
      (Shard.runEvents ((Shard.handle_event testShard 0 (Except.ok (helloEvent 41250))).2)
          0 [heartbeatAckEvent]).heartbeat_interval = some 41250) :=
  ⟨rfl, by decide,
    C6_amended_hello_stores_interval testShard 41250 0 [heartbeatAckEvent] rfl (by decide)⟩

/-- Claim C7: once a heartbeat has been sent at time `t` (recording
`last_heartbeat_sent = t`), every evaluation of the timing check at a time
`now` within the interval window (`now - t ≤ interval`) is satisfied without
sending another frame and without changing the shard — so at most one
heartbeat frame is issued per interval window. -/
theorem C7_heartbeat_once_per_interval (s : Shard) (env : Env) (iv t now : Nat)
    (hiv : s.heartbeat_interval = some iv)
    (hsend : env.sendOk = true)
    (hwithin : now - t ≤ iv) :
    Shard.do_heartbeat_interval ((Shard.heartbeat s env t).2.1) env now
      = (true, (Shard.heartbeat s env t).2.1, []) := by
  simp [Shard.heartbeat, WebsocketClient.send, hsend, Shard.do_heartbeat_interval,
    hiv, hwithin]

/-- Claim C7, witness: a shard with a 41250 ms interval heartbeats at time 0;
a re-check at time 41250 (the edge of the window) sends nothing. -/
theorem C7_witness :
    c7Shard.heartbeat_interval = some 41250 ∧
    okEnv.sendOk = true ∧
    41250 - 0 ≤ 41250 ∧
    Shard.do_heartbeat_interval ((Shard.heartbeat c7Shard okEnv 0).2.1) okEnv 41250
      = (true, (Shard.heartbeat c7Shard okEnv 0).2.1, []) :=
  ⟨rfl, rfl, by decide,
    C7_heartbeat_once_per_interval c7Shard okEnv 41250 0 41250 rfl rfl (by decide)⟩

/-- Claim C8: `ShardInformation` serializes as the ordered 2-element array
`[id, total]` (never an object), both standalone (`{5,8}` as `[5,8]`) and
under the Identify payload's `"shard"` key (`{2,4}` yields `d.shard =
[2,4]`); deserializing the produced array yields the same value back. -/
theorem C8_shard_information_wire_format (si : ShardInformation) (token : String)
    (intents : Nat) :
    ShardInformation.serialize si = Json.arr [Json.num si.id, Json.num si.total] ∧
    ShardInformation.deserialize (ShardInformation.serialize si) = some si ∧
    ShardInformation.serialize { id := 5, total := 8 } = Json.arr [Json.num 5, Json.num 8] ∧
    ((getKey (WebsocketClient.send_identify_message token (some si) intents).objFields "d").map
        (fun d => getKey d.objFields "shard"))
      = some (some (ShardInformation.serialize si)) ∧
    ((getKey (WebsocketClient.send_identify_message token
          (some { id := 2, total := 4 }) intents).objFields "d").map
        (fun d => getKey d.objFields "shard"))
      = some (some (Json.arr [Json.num 2, Json.num 4])) :=
  ⟨rfl, rfl, rfl, rfl, rfl⟩

/-- Claim C9: whenever `resume()` returns `NoSessionToResume`, the failure is
not atomic: the transport link has already been reopened (at `resume_url` if
set, else at the original gateway URL — so the reconnect succeeded), the
stage has been changed to `Resuming`, no frame was sent, and the cause is the
absent session id. -/
theorem C9_resume_failure_not_atomic (s : Shard) (env : Env)
    (h : (Shard.resume s env).1
      = Except.error (Error.Gateway GatewayError.NoSessionToResume)) :
    (Shard.resume s env).2.1.connection_stage = ConnectionStage.Resuming ∧
    (Shard.resume s env).2.1.websocket = { url := s.resume_url.getD s.websocket_url } ∧
    env.connectOk (s.resume_url.getD s.websocket_url) = true ∧
    s.session_id = none ∧
    (Shard.resume s env).2.2 = [] := by
  by_cases hc : env.connectOk (s.resume_url.getD s.websocket_url) = true
  · cases hsid : s.session_id with
    | none =>
      refine ⟨?_, ?_, hc, rfl, ?_⟩ <;> simp [Shard.resume, Shard.init, hc, hsid]
    | some sid =>
      exfalso
      cases hsend : env.sendOk <;>
        simp [Shard.resume, Shard.init, WebsocketClient.send, hc, hsid, hsend] at h
  · exfalso
    simp only [Bool.not_eq_true] at hc
    simp [Shard.resume, Shard.init, hc] at h

/-- Claim C9, witness: a fresh shard (no session) resumed against an
always-connecting environment observes `NoSessionToResume` with the stage
and transport already mutated. -/
theorem C9_witness :
    (Shard.resume testShard okEnv).1
      = Except.error (Error.Gateway GatewayError.NoSessionToResume) ∧
    ((Shard.resume testShard okEnv).2.1.connection_stage = ConnectionStage.Resuming ∧
      (Shard.resume testShard okEnv).2.1.websocket
        = { url := testShard.resume_url.getD testShard.websocket_url } ∧
      okEnv.connectOk (testShard.resume_url.getD testShard.websocket_url) = true ∧
      testShard.session_id = none ∧
      (Shard.resume testShard okEnv).2.2 = []) :=
  ⟨rfl, C9_resume_failure_not_atomic testShard okEnv rfl⟩

/-- Claim C10: for every decoded event whose opcode carries no receive
semantics (the decoder leaves `receive_data = None`), `handle_event` returns
`Ok(None)` and the shard is left exactly unchanged; and the decoder indeed
leaves `receive_data = None` for the send-only opcodes 2, 3, 4, 6, 8, 31. -/
theorem C10_no_receive_semantics_noop (s : Shard) (now : Nat) (e : Event)
    (h : e.receive_data = none) :
    Shard.handle_event s now (Except.ok e) = (Except.ok none, s) ∧
    (∀ v ∈ [2, 3, 4, 6, 8, 31],
      (Event.deserializeImpl (Json.obj [("op", Json.num v)])).receiveDataOf
        = some none) :=
  ⟨by simp [Shard.handle_event, h], by decide⟩

/-- Claim C10, witness: a decoded Identify-opcode envelope (op 2,
`receive_data = None`) leaves a concrete shard untouched. -/
theorem C10_witness :
    sendOnlyEvent.receive_data = none ∧
    (Shard.handle_event testShard 0 (Except.ok sendOnlyEvent) = (Except.ok none, testShard) ∧
      (∀ v ∈ [2, 3, 4, 6, 8, 31],
        (Event.deserializeImpl (Json.obj [("op", Json.num v)])).receiveDataOf
          = some none)) :=
  ⟨rfl, C10_no_receive_semantics_noop testShard 0 sendOnlyEvent rfl⟩

end Discors
